import Mathlib

/-!
Shallow embedding of the shopping-cart engine of the neatify backend
(src/backend/app/services/cart_service.py) together with the data model it
operates on.  Database state is modelled as explicit lists of rows and every
service method becomes a pure function threading that state; a method that can
raise CartError returns an Except value paired with the state as it stands at
the moment of the raise (in the source every raise happens before any commit).
Monetary amounts (Python Decimal) are modelled as rationals, Python ints as
Int, row ids as Nat.  Optional Python values are Option, and Python truthiness
of optional ints / strings is modelled explicitly.
-/

/-- Modelled from the spec: app/models/cart.py is not under src/; the spec's
data model gives the cart lifecycle states ACTIVE, EXPIRED, CONVERTED. -/
inductive CartStatus where
  | active
  | expired
  | converted
deriving DecidableEq, Repr

/-- Row of the products table (app/models/product.py), restricted to the
fields the cart service reads. -/
structure Product where
  id : Nat
  name : String
  price : Rat
  stock : Int
  is_active : Bool
deriving DecidableEq, Repr

/-- Row of the product_variations table (app/models/product.py), restricted
to the fields the cart service reads.  The stock column is kept optional
because the service guards every read with a noneness check. -/
structure ProductVariation where
  id : Nat
  product_id : Nat
  stock : Option Int
deriving DecidableEq, Repr

/-- Modelled from the spec: app/models/cart.py is not under src/; a CartItem
row carries its cart, an optional owner, the (product, optional variation)
reference, a quantity and a snapshotted unit price, exactly the fields the
cart service reads and writes. -/
structure CartItem where
  id : Nat
  cart_id : Nat
  user_id : Option Nat
  product_id : Nat
  variation_id : Option Nat
  quantity : Int
  unit_price : Option Rat
deriving DecidableEq, Repr

/-- Modelled from the spec: app/models/cart.py is not under src/; a Cart row
has a surrogate id, the two owner columns user_id / session_id, a lifecycle
status, an expiration timestamp and the derived monetary aggregates. -/
structure Cart where
  id : Nat
  user_id : Option Nat
  session_id : Option String
  status : CartStatus
  expires_at : Int
  subtotal : Rat
  tax_amount : Rat
  discount_amount : Option Rat
  total : Rat
deriving DecidableEq, Repr

/-- Database state seen by the cart service: the four tables it touches plus
autoincrement counters for fresh row ids and the current time (the service
reads the clock, never advances it).  Time is measured in hours so the
expiration windows of the source can be used unscaled. -/
structure DB where
  products : List Product
  variations : List ProductVariation
  carts : List Cart
  items : List CartItem
  next_cart_id : Nat
  next_item_id : Nat
  now : Int
deriving DecidableEq, Repr

/-- Python truthiness of an Optional[int]: None and 0 are falsy. -/
def pyTruthyNat : Option Nat → Bool
  | none => false
  | some n => n != 0

/-- Python truthiness of an Optional[str]: None and the empty string are
falsy. -/
def pyTruthyStr : Option String → Bool
  | none => false
  | some s => s != ""

/-- Python coalescing on an optional decimal, as in the source expressions
item.unit_price or item.product.price and cart.discount_amount or
Decimal zero: the fallback is taken when the left side is None or zero,
because Decimal zero is falsy. -/
def pyOrRat : Option Rat → Rat → Rat
  | none, d => d
  | some x, d => if x = 0 then d else x

/-- Lookup of an active product, as in the add_item query filtering on
Product.id and Product.is_active. -/
def DB.findProductActive (db : DB) (pid : Nat) : Option Product :=
  db.products.find? (fun p => p.id == pid && p.is_active)

/-- Lookup through the CartItem.product relationship (by primary key, no
active filter). -/
def DB.findProduct (db : DB) (pid : Nat) : Option Product :=
  db.products.find? (fun p => p.id == pid)

/-- Items of a cart, the cart.items relationship, in row order. -/
def DB.cartItems (db : DB) (cid : Nat) : List CartItem :=
  db.items.filter (fun it => it.cart_id == cid)

/-- Lookup of a cart row by primary key. -/
def DB.findCart (db : DB) (cid : Nat) : Option Cart :=
  db.carts.find? (fun c => c.id == cid)

/-- In-place update of the cart row with the given id. -/
def DB.updateCart (db : DB) (cid : Nat) (f : Cart → Cart) : DB :=
  { db with carts := db.carts.map (fun c => if c.id == cid then f c else c) }

/-- In-place replacement of the cart-item row with the given id. -/
def DB.updateItem (db : DB) (iid : Nat) (newIt : CartItem) : DB :=
  { db with items := db.items.map (fun it => if it.id == iid then newIt else it) }

/-- Insertion of a new cart row, consuming the next fresh cart id. -/
def DB.insertCart (db : DB) (c : Cart) : DB :=
  { db with carts := db.carts ++ [c], next_cart_id := db.next_cart_id + 1 }

/-- Insertion of a new cart-item row, consuming the next fresh item id. -/
def DB.insertItem (db : DB) (it : CartItem) : DB :=
  { db with items := db.items ++ [it], next_item_id := db.next_item_id + 1 }

/-- CartService.MAX_QUANTITY_PER_ITEM. -/
def MAX_QUANTITY_PER_ITEM : Int := 10

/-- CartService.CART_EXPIRATION_HOURS. -/
def CART_EXPIRATION_HOURS : Int := 72

/-- CartService.TAX_RATE, the 18 percent VAT constant. -/
def TAX_RATE : Rat := 18 / 100

/-- CartService.FREE_SHIPPING_THRESHOLD. -/
def FREE_SHIPPING_THRESHOLD : Rat := 50000

/-- CartService.SHIPPING_COST. -/
def SHIPPING_COST : Rat := 5000

/-- CartError carries a message and an HTTP status code. -/
structure CartError where
  message : String
  status_code : Nat
deriving DecidableEq, Repr

/-- Message of the product-unavailable error raised by add_item. -/
def productNotFoundMsg : String := "Product not found or not available"

/-- Message of the variation-not-found error raised by add_item. -/
def variationNotFoundMsg : String := "Product variation not found"

/-- Message of the item-not-found error raised by update_item_quantity. -/
def itemNotFoundMsg : String := "Cart item not found"

/-- Message of the quantity-cap error, with the cap constant interpolated. -/
def maxQuantityMsg : String := "Maximum quantity per item is 10"

/-- Message of the insufficient-stock error, with the available stock
interpolated. -/
def insufficientStockMsg (available : Int) : String :=
  "Insufficient stock. Only " ++ toString available ++ " items available"

/-- Price used for a line by the totals computation: item.unit_price or
item.product.price (Python falsy-or).  A missing product row would be an
AttributeError in the source and cannot arise through the service (items are
only created for existing products); it is given price 0 here. -/
def itemTotalsPrice (db : DB) (it : CartItem) : Rat :=
  pyOrRat it.unit_price
    (match db.findProduct it.product_id with
     | some p => p.price
     | none => 0)

/-- Subtotal loop of CartService._update_cart_totals. -/
def computeSubtotal (db : DB) (cid : Nat) : Rat :=
  (db.cartItems cid).foldl (fun acc it => acc + itemTotalsPrice db it * (it.quantity : Rat)) 0

/-- Shipping charge applied by _update_cart_totals: the flat cost below the
free-shipping threshold on a non-empty subtotal, zero otherwise. -/
def shippingFor (subtotal : Rat) : Rat :=
  if subtotal < FREE_SHIPPING_THRESHOLD ∧ subtotal > 0 then SHIPPING_COST else 0

/-- Field writes of _update_cart_totals on the cart row: subtotal, tax and
total (with shipping folded into the total, exactly as in the source); the
discount read comes from the cart object passed in. -/
def totalsSetter (db : DB) (cid : Nat) (cart : Cart) : Cart → Cart := fun c =>
  { c with
    subtotal := computeSubtotal db cid
  , tax_amount := computeSubtotal db cid * TAX_RATE
  , total := computeSubtotal db cid + computeSubtotal db cid * TAX_RATE
      + shippingFor (computeSubtotal db cid) - pyOrRat cart.discount_amount 0 }

/-- CartService._update_cart_totals: recompute subtotal, tax, shipping and
discount from the cart's items and store subtotal, tax_amount and total on
the cart row.  The shipping charge is part of the stored total in the
source (total = subtotal + tax_amount + shipping - discount). -/
def updateCartTotals (db : DB) (cid : Nat) : DB :=
  match db.findCart cid with
  | none => db
  | some cart => db.updateCart cid (totalsSetter db cid cart)

/-- Payload of the add-item call (app/schemas/cart.py CartItemCreate). -/
structure CartItemCreate where
  product_id : Nat
  variation_id : Option Nat
  quantity : Int
deriving DecidableEq, Repr

/-- Variation check of add_item: when a variation id is given (truthily),
the variation must exist for the product, and its stock, when tracked,
replaces the product stock as the available stock. -/
def availableStockFor (db : DB) (d : CartItemCreate) (product : Product) :
    Except CartError Int :=
  if pyTruthyNat d.variation_id then
    match db.variations.find? (fun v => some v.id == d.variation_id && v.product_id == d.product_id) with
    | none => Except.error ⟨variationNotFoundMsg, 404⟩
    | some variation =>
      Except.ok (match variation.stock with
        | some s => s
        | none => product.stock)
  else
    Except.ok product.stock

/-- Existing-line lookup of add_item: same cart, same product, same
(possibly null) variation. -/
def findExistingItem (db : DB) (cid : Nat) (d : CartItemCreate) : Option CartItem :=
  db.items.find?
    (fun it => it.cart_id == cid && it.product_id == d.product_id && it.variation_id == d.variation_id)

/-- Resulting quantity of add_item: additive on an existing line, otherwise
the requested quantity. -/
def addResultingQuantity (db : DB) (cid : Nat) (d : CartItemCreate) : Int :=
  match findExistingItem db cid d with
  | some it => it.quantity + d.quantity
  | none => d.quantity

/-- Item-row write shared by add_item and update_item_quantity: set the
quantity and re-snapshot the unit price from the product. -/
def withQuantityPrice (it : CartItem) (q : Int) (price : Rat) : CartItem :=
  { it with quantity := q, unit_price := some price }

/-- CartService.add_item.  Validation order as in the source: product, then
variation, then quantity cap, then stock; each raise returns the state
untouched because in the source every raise precedes the first commit. -/
def add_item (db : DB) (cart : Cart) (d : CartItemCreate) :
    Except CartError CartItem × DB :=
  match db.findProductActive d.product_id with
  | none => (Except.error ⟨productNotFoundMsg, 404⟩, db)
  | some product =>
    match availableStockFor db d product with
    | Except.error e => (Except.error e, db)
    | Except.ok available_stock =>
      if addResultingQuantity db cart.id d > MAX_QUANTITY_PER_ITEM then
        (Except.error ⟨maxQuantityMsg, 400⟩, db)
      else if addResultingQuantity db cart.id d > available_stock then
        (Except.error ⟨insufficientStockMsg available_stock, 400⟩, db)
      else
        match findExistingItem db cart.id d with
        | some it =>
          (Except.ok (withQuantityPrice it (addResultingQuantity db cart.id d) product.price),
           updateCartTotals
             (db.updateItem it.id
               (withQuantityPrice it (addResultingQuantity db cart.id d) product.price)) cart.id)
        | none =>
          (Except.ok ⟨db.next_item_id, cart.id, cart.user_id, d.product_id, d.variation_id,
              d.quantity, some product.price⟩,
           updateCartTotals
             (db.insertItem ⟨db.next_item_id, cart.id, cart.user_id, d.product_id,
                d.variation_id, d.quantity, some product.price⟩) cart.id)

/-- Available stock as recomputed inside update_item_quantity and
validate_cart_for_checkout: the product stock, overridden by the variation
stock when the item carries a truthy variation id, the variation row exists
and its stock is tracked. -/
def liveAvailableStock (db : DB) (it : CartItem) (product : Product) : Int :=
  if pyTruthyNat it.variation_id then
    match db.variations.find? (fun v => some v.id == it.variation_id) with
    | some variation =>
      (match variation.stock with
       | some s => s
       | none => product.stock)
    | none => product.stock
  else product.stock

/-- CartService.update_item_quantity: absolute quantity semantics, same cap
and stock checks as add_item.  The branch for a dangling product reference
stands for the AttributeError the source would raise there; the foreign key
keeps it unreachable. -/
def update_item_quantity (db : DB) (cart : Cart) (item_id : Nat) (quantity : Int) :
    Except CartError CartItem × DB :=
  match db.items.find? (fun it => it.id == item_id && it.cart_id == cart.id) with
  | none => (Except.error ⟨itemNotFoundMsg, 404⟩, db)
  | some cart_item =>
    if quantity > MAX_QUANTITY_PER_ITEM then
      (Except.error ⟨maxQuantityMsg, 400⟩, db)
    else
      match db.findProduct cart_item.product_id with
      | none => (Except.error ⟨"AttributeError", 500⟩, db)
      | some product =>
        if quantity > liveAvailableStock db cart_item product then
          (Except.error ⟨insufficientStockMsg (liveAvailableStock db cart_item product), 400⟩, db)
        else
          (Except.ok (withQuantityPrice cart_item quantity product.price),
           updateCartTotals
             (db.updateItem cart_item.id (withQuantityPrice cart_item quantity product.price))
             cart.id)

/-- Issue message for an item whose product is missing or inactive. -/
def productUnavailableIssue (name : String) : String :=
  "Product \x27" ++ name ++ "\x27 is no longer available"

/-- Issue message for an item whose quantity exceeds the live stock. -/
def stockIssue (name : String) (available : Int) (qty : Int) : String :=
  "\x27" ++ name ++ "\x27 has only " ++ toString available ++
    " items in stock (you have " ++ toString qty ++ ")"

/-- Per-item body of the checkout-validation loop: at most one issue per
item — the availability issue (with continue) or the stock issue. -/
def checkoutIssue (db : DB) (it : CartItem) : Option String :=
  match db.findProduct it.product_id with
  | none => some (productUnavailableIssue "Unknown")
  | some product =>
    if !product.is_active then some (productUnavailableIssue product.name)
    else
      let available_stock := liveAvailableStock db it product
      if it.quantity > available_stock then
        some (stockIssue product.name available_stock it.quantity)
      else none

/-- Issue-collection loop of validate_cart_for_checkout: issues are appended
in item iteration order, at most one per item. -/
def collectIssues (db : DB) (items : List CartItem) : List String :=
  items.foldl (fun acc it =>
    match checkoutIssue db it with
    | some m => acc ++ [m]
    | none => acc) []

/-- CartService.validate_cart_for_checkout: empty cart short-circuits with
the single issue, otherwise the loop collects issues in item order and the
verdict is the emptiness of the issue list.  The function only reads, so the
state is not threaded. -/
def validate_cart_for_checkout (db : DB) (cart : Cart) : Bool × List String :=
  if (db.cartItems cart.id).isEmpty then
    (false, ["Cart is empty"])
  else
    ((collectIssues db (db.cartItems cart.id)).length == 0,
     collectIssues db (db.cartItems cart.id))

/-- Modelled from the spec: app/models/cart.py (Cart.is_expired) is not under
src/; per the spec an ACTIVE cart past its expires_at timestamp is logically
expired. -/
def cartIsExpired (db : DB) (c : Cart) : Bool := db.now > c.expires_at

/-- Modelled from the spec: app/models/cart.py (Cart.set_expiration and
Cart.refresh_expiration) is not under src/; both set expires_at to now plus
the given window in hours, the sliding-expiration rule. -/
def expirationFrom (db : DB) (hours : Int) : Int := db.now + hours

/-- Cart row built by get_or_create_cart: the session owner column is kept
only when the user id is falsy (session_id if not user_id else None). -/
def mkNewCart (db : DB) (user_id : Option Nat) (session_id : Option String) : Cart :=
  { id := db.next_cart_id
  , user_id := user_id
  , session_id := if !pyTruthyNat user_id then session_id else none
  , status := CartStatus.active
  , expires_at := expirationFrom db CART_EXPIRATION_HOURS
  , subtotal := 0, tax_amount := 0, discount_amount := none, total := 0 }

/-- Lookup of the owner's ACTIVE cart by user id column. -/
def findActiveCartByUser (db : DB) (user_id : Option Nat) : Option Cart :=
  db.carts.find? (fun c => c.user_id == user_id && c.status == CartStatus.active)

/-- Lookup of the owner's ACTIVE cart by session id column. -/
def findActiveCartBySession (db : DB) (session_id : Option String) : Option Cart :=
  db.carts.find? (fun c => c.session_id == session_id && c.status == CartStatus.active)

/-- CartService.get_or_create_cart: resolve the owner's ACTIVE cart (user id
takes priority, Python truthiness on both ids); create a fresh cart when
none is found; replace an expired cart by a fresh one after marking it
EXPIRED; otherwise slide the expiration forward and return the same cart. -/
def get_or_create_cart (db : DB) (user_id : Option Nat) (session_id : Option String) :
    Cart × DB :=
  match (if pyTruthyNat user_id then findActiveCartByUser db user_id
         else if pyTruthyStr session_id then findActiveCartBySession db session_id
         else none) with
  | none =>
    (mkNewCart db user_id session_id, db.insertCart (mkNewCart db user_id session_id))
  | some cart =>
    if cartIsExpired db cart then
      (mkNewCart (db.updateCart cart.id (fun c => { c with status := CartStatus.expired }))
         user_id session_id,
       (db.updateCart cart.id (fun c => { c with status := CartStatus.expired })).insertCart
         (mkNewCart (db.updateCart cart.id (fun c => { c with status := CartStatus.expired }))
           user_id session_id))
    else
      ({ cart with expires_at := expirationFrom db CART_EXPIRATION_HOURS },
       db.updateCart cart.id
         (fun _ => { cart with expires_at := expirationFrom db CART_EXPIRATION_HOURS }))

/-- CartService.get_cart: lookup without creation. -/
def get_cart (db : DB) (user_id : Option Nat) (session_id : Option String) : Option Cart :=
  if pyTruthyNat user_id then findActiveCartByUser db user_id
  else if pyTruthyStr session_id then findActiveCartBySession db session_id
  else none

/-- Shape of the status_info dict built by detect_user_cart_status. -/
structure CartStatusInfo where
  has_user_cart : Bool
  has_session_cart : Bool
  user_cart_items : Nat
  session_cart_items : Nat
  can_merge : Bool
  recommend_merge : Bool
  user_type : String
deriving DecidableEq, Repr

/-- The status_info dict as built by the body of
CartService.detect_user_cart_status, before the function falls off its end. -/
def detectUserCartStatusInfo (db : DB) (user : Option Nat) (session_id : Option String) :
    CartStatusInfo :=
  let base : CartStatusInfo :=
    { has_user_cart := false, has_session_cart := false
    , user_cart_items := 0, session_cart_items := 0
    , can_merge := false, recommend_merge := false, user_type := "guest" }
  let s1 :=
    match user with
    | none => base
    | some uid =>
      let b := { base with user_type := "registered" }
      match get_cart db (some uid) none with
      | some user_cart =>
        if (db.cartItems user_cart.id).isEmpty then b
        else { b with has_user_cart := true
                    , user_cart_items := (db.cartItems user_cart.id).length }
      | none => b
  let s2 :=
    if pyTruthyStr session_id then
      match get_cart db none session_id with
      | some session_cart =>
        if (db.cartItems session_cart.id).isEmpty then s1
        else { s1 with has_session_cart := true
                     , session_cart_items := (db.cartItems session_cart.id).length }
      | none => s1
    else s1
  if s2.has_user_cart && s2.has_session_cart then
    { s2 with can_merge := true, recommend_merge := decide (s2.session_cart_items > 0) }
  else s2

/-- CartService.detect_user_cart_status as written: the body builds the
status_info dict but the function ends without a return statement, so in
Python the call evaluates to None. -/
def detect_user_cart_status (db : DB) (user : Option Nat) (session_id : Option String) :
    Option CartStatusInfo :=
  let _status_info := detectUserCartStatusInfo db user session_id
  none

/-- Single merge step of merge_session_cart: add_item is attempted for the
session item and a CartError is swallowed, keeping whatever state add_item
left (its raises leave the state untouched). -/
def mergeStep (user_cart : Cart) (acc : DB) (it : CartItem) : DB :=
  (add_item acc user_cart ⟨it.product_id, it.variation_id, it.quantity⟩).2

/-- CartService.merge_session_cart: no-op when the session's ACTIVE cart is
absent or empty; otherwise resolve-or-create the user cart, best-effort add
every session item to it, mark the session cart CONVERTED and return the
user cart. -/
def merge_session_cart (db : DB) (user_id : Nat) (session_id : String) :
    Option Cart × DB :=
  match findActiveCartBySession db (some session_id) with
  | none => (none, db)
  | some session_cart =>
    if (db.cartItems session_cart.id).isEmpty then (none, db)
    else
      (some (get_or_create_cart db (some user_id) none).1,
       ((db.cartItems session_cart.id).foldl
           (mergeStep (get_or_create_cart db (some user_id) none).1)
           (get_or_create_cart db (some user_id) none).2).updateCart session_cart.id
         (fun c => { c with status := CartStatus.converted }))

/-- Modelled from the spec: app/schemas/cart.py (CartItemUpdate) is not under
src/; its quantity field is a positive integer per the data model, quantity:
positive integer, bounded above by a fixed per-item cap. -/
def CartItemUpdateValid (quantity : Int) : Prop := 1 ≤ quantity

/-- Modelled from the spec: app/schemas/cart.py (CartItemCreate) is not under
src/; its quantity field is a positive integer per the data model. -/
def CartItemCreateValid (d : CartItemCreate) : Prop := 1 ≤ d.quantity

/-! ### Basic state lemmas -/

theorem updateCart_items (db : DB) (cid : Nat) (f : Cart → Cart) :
    (db.updateCart cid f).items = db.items := rfl

theorem updateCart_products (db : DB) (cid : Nat) (f : Cart → Cart) :
    (db.updateCart cid f).products = db.products := rfl

theorem cartItems_updateCart (db : DB) (cid cid' : Nat) (f : Cart → Cart) :
    (db.updateCart cid f).cartItems cid' = db.cartItems cid' := rfl

theorem computeSubtotal_updateCart (db : DB) (cid cid' : Nat) (f : Cart → Cart) :
    computeSubtotal (db.updateCart cid f) cid' = computeSubtotal db cid' := rfl

theorem updateCartTotals_items (db : DB) (cid : Nat) :
    (updateCartTotals db cid).items = db.items := by
  unfold updateCartTotals
  cases db.findCart cid <;> rfl

theorem updateCartTotals_products (db : DB) (cid : Nat) :
    (updateCartTotals db cid).products = db.products := by
  unfold updateCartTotals
  cases db.findCart cid <;> rfl

theorem updateCartTotals_variations (db : DB) (cid : Nat) :
    (updateCartTotals db cid).variations = db.variations := by
  unfold updateCartTotals
  cases db.findCart cid <;> rfl

theorem updateCartTotals_next_item_id (db : DB) (cid : Nat) :
    (updateCartTotals db cid).next_item_id = db.next_item_id := by
  unfold updateCartTotals
  cases db.findCart cid <;> rfl

theorem find?_map_update (l : List Cart) (cid : Nat) (f : Cart → Cart)
    (hf : ∀ c, (f c).id = c.id) :
    (l.map (fun c => if c.id == cid then f c else c)).find? (fun c => c.id == cid)
      = (l.find? (fun c => c.id == cid)).map f := by
  induction l with
  | nil => rfl
  | cons c cs ih =>
    by_cases h : c.id = cid
    · simp [h, hf]
    · have h' : (c.id == cid) = false := by simp [h]
      simp only [List.map_cons, h', if_false, List.find?_cons_of_neg, h,
        not_false_iff]
      simpa [h'] using ih

theorem findCart_updateCart (db : DB) (cid : Nat) (f : Cart → Cart)
    (hf : ∀ c, (f c).id = c.id) :
    (db.updateCart cid f).findCart cid = (db.findCart cid).map f :=
  find?_map_update db.carts cid f hf

theorem totalsSetter_id (db : DB) (cid : Nat) (cart c : Cart) :
    (totalsSetter db cid cart c).id = c.id := rfl

theorem updateCartTotals_of_none (db : DB) (cid : Nat) (h : db.findCart cid = none) :
    updateCartTotals db cid = db := by
  unfold updateCartTotals; rw [h]

theorem updateCartTotals_of_some (db : DB) (cid : Nat) (cart : Cart)
    (h : db.findCart cid = some cart) :
    updateCartTotals db cid = db.updateCart cid (totalsSetter db cid cart) := by
  unfold updateCartTotals; rw [h]

theorem updateCart_idem (db : DB) (cid : Nat) (f g : Cart → Cart)
    (hid : ∀ c, (f c).id = c.id) (hfg : ∀ c, g (f c) = f c) :
    (db.updateCart cid f).updateCart cid g = db.updateCart cid f := by
  unfold DB.updateCart
  simp only [List.map_map]
  congr 1
  apply List.map_congr_left
  intro c _
  by_cases hc : c.id = cid
  · simp [Function.comp, hc, hid, hfg]
  · simp [Function.comp, hc]

/-- Claim C10: recomputing the cart totals is idempotent — a second run of
_update_cart_totals on the unchanged item set produces exactly the same
stored state (hence identical subtotal, tax_amount and total) as one run. -/
theorem totals_recompute_idempotent (db : DB) (cid : Nat) :
    updateCartTotals (updateCartTotals db cid) cid = updateCartTotals db cid := by
  cases h : db.findCart cid with
  | none =>
    have h1 := updateCartTotals_of_none db cid h
    rw [h1, h1]
  | some cart =>
    have h1 := updateCartTotals_of_some db cid cart h
    have hfind : (updateCartTotals db cid).findCart cid =
        some (totalsSetter db cid cart cart) := by
      rw [h1, findCart_updateCart _ _ _ (totalsSetter_id db cid cart), h]
      rfl
    have hsub : computeSubtotal (updateCartTotals db cid) cid = computeSubtotal db cid := by
      rw [h1]; rfl
    have h2 := updateCartTotals_of_some (updateCartTotals db cid) cid
      (totalsSetter db cid cart cart) hfind
    have hsetter : totalsSetter (updateCartTotals db cid) cid (totalsSetter db cid cart cart)
        = totalsSetter db cid cart := by
      funext c
      simp only [totalsSetter, hsub]
    rw [h2, hsetter, h1]
    exact updateCart_idem db cid _ _ (totalsSetter_id db cid cart) (fun c => rfl)

/-! ### Claim C1: shipping in the persisted total -/

/-- Claim C1 (amended): the totals recomputation stores
total = subtotal + tax_amount + shipping - discount_amount, with the
shipping charge included in the persisted total field. -/
theorem cart_total_includes_shipping (db : DB) (cid : Nat) (cart : Cart)
    (h : db.findCart cid = some cart) :
    (updateCartTotals db cid).findCart cid = some
      { cart with
        subtotal := computeSubtotal db cid
      , tax_amount := computeSubtotal db cid * TAX_RATE
      , total := computeSubtotal db cid + computeSubtotal db cid * TAX_RATE
          + shippingFor (computeSubtotal db cid) - pyOrRat cart.discount_amount 0 } := by
  rw [updateCartTotals_of_some db cid cart h,
    findCart_updateCart _ _ _ (totalsSetter_id db cid cart), h]
  rfl

/-- Sample product used by concrete evaluations below. -/
def exProduct1 : Product := ⟨1, "Lamp", 100, 10, true⟩

/-- Sample cart row used by concrete evaluations below. -/
def exCartT : Cart := ⟨1, some 1, none, CartStatus.active, 100, 0, 0, none, 0⟩

/-- Sample state: one active product, one cart holding one unit at price
100. -/
def exDbTotals : DB := ⟨[exProduct1], [], [exCartT], [⟨1, 1, some 1, 1, none, 1, some 100⟩], 2, 2, 0⟩

/-- Claim C1 counterexample: on a cart with subtotal 100 the recomputation
persists total 5118 = 100 + 18 + 5000, not subtotal + tax - discount = 118;
the shipping charge is added into the stored total field. -/
theorem cart_total_counterexample :
    ((updateCartTotals exDbTotals 1).findCart 1).map Cart.total = some 5118 ∧
    ((updateCartTotals exDbTotals 1).findCart 1).map
        (fun c => c.subtotal + c.tax_amount - pyOrRat c.discount_amount 0) = some 118 ∧
    (5118 : Rat) ≠ (118 : Rat) := by
  have hsub : computeSubtotal exDbTotals 1 = 100 := by
    norm_num [computeSubtotal, DB.cartItems, exDbTotals, itemTotalsPrice, pyOrRat,
      DB.findProduct, exProduct1, List.filter, List.foldl, List.find?]
  have hfindres : (updateCartTotals exDbTotals 1).findCart 1
      = some (totalsSetter exDbTotals 1 exCartT exCartT) := by
    rw [updateCartTotals_of_some exDbTotals 1 exCartT rfl,
      findCart_updateCart _ _ _ (totalsSetter_id exDbTotals 1 exCartT)]
    rfl
  refine ⟨?_, ?_, by norm_num⟩
  · rw [hfindres]
    simp only [Option.map_some', totalsSetter, hsub]
    norm_num [shippingFor, TAX_RATE, SHIPPING_COST, FREE_SHIPPING_THRESHOLD,
      pyOrRat, exCartT]
  · rw [hfindres]
    simp only [Option.map_some', totalsSetter, hsub]
    norm_num [TAX_RATE, pyOrRat, exCartT]

/-- Witness for the amended C1 theorem at the sample state. -/
theorem cart_total_includes_shipping_witness :
    (updateCartTotals exDbTotals 1).findCart 1 = some
      { exCartT with
        subtotal := computeSubtotal exDbTotals 1
      , tax_amount := computeSubtotal exDbTotals 1 * TAX_RATE
      , total := computeSubtotal exDbTotals 1 + computeSubtotal exDbTotals 1 * TAX_RATE
          + shippingFor (computeSubtotal exDbTotals 1) - pyOrRat exCartT.discount_amount 0 } :=
  cart_total_includes_shipping exDbTotals 1 exCartT rfl

/-! ### Claim C2: detect_user_cart_status falls off without returning -/

/-- Sample state: user 1 owns active cart 1 with one item, session s owns
active cart 2 with one item. -/
def exDbDetect : DB :=
  ⟨[], [],
   [⟨1, some 1, none, CartStatus.active, 100, 0, 0, none, 0⟩,
    ⟨2, none, some "s", CartStatus.active, 100, 0, 0, none, 0⟩],
   [⟨1, 1, some 1, 1, none, 2, some 10⟩,
    ⟨2, 2, none, 1, none, 3, some 10⟩],
   3, 3, 0⟩

/-- Claim C2: on a state where both carts exist and hold items — exactly the
situation whose report should recommend a merge, as the status_info built by
the body shows — detect_user_cart_status still returns None, because the
function has no return statement. -/
theorem detect_user_cart_status_missing_return :
    detect_user_cart_status exDbDetect (some 1) (some "s") = none ∧
    (detectUserCartStatusInfo exDbDetect (some 1) (some "s")).has_user_cart = true ∧
    (detectUserCartStatusInfo exDbDetect (some 1) (some "s")).has_session_cart = true ∧
    (detectUserCartStatusInfo exDbDetect (some 1) (some "s")).user_cart_items = 1 ∧
    (detectUserCartStatusInfo exDbDetect (some 1) (some "s")).session_cart_items = 1 ∧
    (detectUserCartStatusInfo exDbDetect (some 1) (some "s")).recommend_merge = true := by
  decide

/-! ### Claim C8: owner fields of carts returned by get_or_create_cart -/

/-- Sample state: completely empty store. -/
def exDbEmpty : DB := ⟨[], [], [], [], 1, 1, 0⟩

/-- Claim C8 counterexample: called with neither a user id nor a session id,
get_or_create_cart creates and persists a cart with no owner field set at
all, refuting that every returned cart has exactly one owner field set. -/
theorem ownerless_cart_counterexample :
    (get_or_create_cart exDbEmpty none none).1.user_id = none ∧
    (get_or_create_cart exDbEmpty none none).1.session_id = none ∧
    (get_or_create_cart exDbEmpty none none).2.carts ≠ [] := by decide

theorem mkNewCart_user (db : DB) (u : Option Nat) (s : Option String) :
    (mkNewCart db u s).user_id = u := rfl

theorem mkNewCart_session_of_truthy (db : DB) (u : Option Nat) (s : Option String)
    (h : pyTruthyNat u = true) : (mkNewCart db u s).session_id = none := by
  simp [mkNewCart, h]

theorem mkNewCart_session_of_falsy (db : DB) (u : Option Nat) (s : Option String)
    (h : pyTruthyNat u = false) : (mkNewCart db u s).session_id = s := by
  simp [mkNewCart, h]

theorem pyTruthyNat_isSome (u : Option Nat) (h : pyTruthyNat u = true) : u.isSome := by
  cases u <;> simp_all [pyTruthyNat]

theorem pyTruthyStr_isSome (s : Option String) (h : pyTruthyStr s = true) : s.isSome := by
  cases s <;> simp_all [pyTruthyStr]

theorem eq_none_of_not_truthy (u : Option Nat) (h : pyTruthyNat u = false)
    (h0 : u ≠ some 0) : u = none := by
  cases u with
  | none => rfl
  | some n =>
    simp only [pyTruthyNat, bne_eq_false_iff_eq] at h
    exact absurd (by rw [h]) h0

theorem findActiveCartByUser_some (db : DB) (u : Option Nat) (cart : Cart)
    (h : findActiveCartByUser db u = some cart) :
    cart.user_id = u ∧ cart.status = CartStatus.active ∧ cart ∈ db.carts := by
  have hp := List.find?_some h
  simp only [Bool.and_eq_true, beq_iff_eq] at hp
  exact ⟨hp.1, hp.2, List.mem_of_find?_eq_some h⟩

theorem findActiveCartBySession_some (db : DB) (s : Option String) (cart : Cart)
    (h : findActiveCartBySession db s = some cart) :
    cart.session_id = s ∧ cart.status = CartStatus.active ∧ cart ∈ db.carts := by
  have hp := List.find?_some h
  simp only [Bool.and_eq_true, beq_iff_eq] at hp
  exact ⟨hp.1, hp.2, List.mem_of_find?_eq_some h⟩

/-- Claim C8 (amended): assuming no stored cart has both owner columns set
and the supplied user id is not a literal 0, the cart returned by
get_or_create_cart never has both owner fields set; it has exactly user_id
set when a truthy user id is supplied, exactly session_id set when no user
id but a truthy session id is supplied, and it has no owner field at all
when the caller supplies neither id. -/
theorem owner_fields_of_get_or_create (db : DB) (u : Option Nat) (s : Option String)
    (hinv : ∀ c ∈ db.carts, ¬(c.user_id.isSome ∧ c.session_id.isSome))
    (h0 : u ≠ some 0) :
    (¬((get_or_create_cart db u s).1.user_id.isSome ∧
        (get_or_create_cart db u s).1.session_id.isSome)) ∧
    (pyTruthyNat u = true →
      (get_or_create_cart db u s).1.user_id = u ∧
      (get_or_create_cart db u s).1.session_id = none) ∧
    (u = none → pyTruthyStr s = true →
      (get_or_create_cart db u s).1.user_id = none ∧
      (get_or_create_cart db u s).1.session_id = s) ∧
    (u = none → s = none →
      (get_or_create_cart db u s).1.user_id = none ∧
      (get_or_create_cart db u s).1.session_id = none) := by
  by_cases htu : pyTruthyNat u = true
  · have husome : u.isSome := pyTruthyNat_isSome u htu
    have hmk : ∀ db' : DB,
        (mkNewCart db' u s).user_id = u ∧ (mkNewCart db' u s).session_id = none :=
      fun db' => ⟨mkNewCart_user db' u s, mkNewCart_session_of_truthy db' u s htu⟩
    have hcontra : ∀ P : Prop, u = none → P := by
      intro P hun
      rw [hun] at htu
      simp [pyTruthyNat] at htu
    cases hc : findActiveCartByUser db u with
    | none =>
      have hr : (get_or_create_cart db u s).1 = mkNewCart db u s := by
        simp [get_or_create_cart, htu, hc]
      rw [hr]
      refine ⟨?_, fun _ => hmk db, fun hun _ => hcontra _ hun, fun hun _ => hcontra _ hun⟩
      rw [(hmk db).1, (hmk db).2]
      simp
    | some cart =>
      by_cases he : cartIsExpired db cart = true
      · have hr : (get_or_create_cart db u s).1
            = mkNewCart (db.updateCart cart.id (fun c => { c with status := CartStatus.expired })) u s := by
          simp [get_or_create_cart, htu, hc, he]
        rw [hr]
        refine ⟨?_, fun _ => hmk _, fun hun _ => hcontra _ hun, fun hun _ => hcontra _ hun⟩
        rw [(hmk _).1, (hmk _).2]
        simp
      · have hr : (get_or_create_cart db u s).1
            = { cart with expires_at := expirationFrom db CART_EXPIRATION_HOURS } := by
          simp [get_or_create_cart, htu, hc, he]
        obtain ⟨hcu, _, hmem⟩ := findActiveCartByUser_some db u cart hc
        have hnotboth := hinv cart hmem
        have hcsess : cart.session_id = none := by
          rcases hs : cart.session_id with _ | v
          · rfl
          · exact absurd ⟨by rw [hcu]; exact husome, by rw [hs]; rfl⟩ hnotboth
        rw [hr]
        refine ⟨?_, fun _ => ⟨hcu, hcsess⟩, fun hun _ => hcontra _ hun, fun hun _ => hcontra _ hun⟩
        show ¬(cart.user_id.isSome ∧ cart.session_id.isSome)
        exact hnotboth
  · have htu' : pyTruthyNat u = false := by
      cases hb : pyTruthyNat u
      · rfl
      · exact absurd hb htu
    have hun : u = none := eq_none_of_not_truthy u htu' h0
    by_cases hts : pyTruthyStr s = true
    · have hsome : s.isSome := pyTruthyStr_isSome s hts
      have hmk : ∀ db' : DB,
          (mkNewCart db' u s).user_id = none ∧ (mkNewCart db' u s).session_id = s :=
        fun db' => ⟨by rw [mkNewCart_user db' u s, hun], mkNewCart_session_of_falsy db' u s htu'⟩
      have hcontra2 : ∀ P : Prop, s = none → P := by
        intro P hsn
        rw [hsn] at hts
        simp [pyTruthyStr] at hts
      cases hc : findActiveCartBySession db s with
      | none =>
        have hr : (get_or_create_cart db u s).1 = mkNewCart db u s := by
          simp [get_or_create_cart, htu', hts, hc]
        rw [hr]
        refine ⟨?_, fun ht => absurd ht htu, fun _ _ => hmk db, fun _ hsn => hcontra2 _ hsn⟩
        rw [(hmk db).1]
        simp
      | some cart =>
        by_cases he : cartIsExpired db cart = true
        · have hr : (get_or_create_cart db u s).1
              = mkNewCart (db.updateCart cart.id (fun c => { c with status := CartStatus.expired })) u s := by
            simp [get_or_create_cart, htu', hts, hc, he]
          rw [hr]
          refine ⟨?_, fun ht => absurd ht htu, fun _ _ => hmk _, fun _ hsn => hcontra2 _ hsn⟩
          rw [(hmk _).1]
          simp
        · have hr : (get_or_create_cart db u s).1
              = { cart with expires_at := expirationFrom db CART_EXPIRATION_HOURS } := by
            simp [get_or_create_cart, htu', hts, hc, he]
          obtain ⟨hcs, _, hmem⟩ := findActiveCartBySession_some db s cart hc
          have hnotboth := hinv cart hmem
          have hcuser : cart.user_id = none := by
            rcases hu2 : cart.user_id with _ | v
            · rfl
            · exact absurd ⟨by rw [hu2]; rfl, by rw [hcs]; exact hsome⟩ hnotboth
          rw [hr]
          refine ⟨?_, fun ht => absurd ht htu, fun _ _ => ⟨hcuser, hcs⟩, fun _ hsn => hcontra2 _ hsn⟩
          show ¬(cart.user_id.isSome ∧ cart.session_id.isSome)
          exact hnotboth
    · have hts' : pyTruthyStr s = false := by
        cases hb : pyTruthyStr s
        · rfl
        · exact absurd hb hts
      have hr : (get_or_create_cart db u s).1 = mkNewCart db u s := by
        simp [get_or_create_cart, htu', hts']
      rw [hr]
      refine ⟨?_, fun ht => absurd ht htu, fun _ hts2 => absurd hts2 hts, fun _ hsn => ?_⟩
      · rw [mkNewCart_user db u s, hun]
        simp
      · refine ⟨by rw [mkNewCart_user db u s, hun], ?_⟩
        rw [mkNewCart_session_of_falsy db u s htu', hsn]

/-- Witness for the amended C8 theorem: a store holding a session cart for
session s, queried with user id 7. -/
theorem owner_fields_of_get_or_create_witness :
    (get_or_create_cart
        ⟨[], [], [⟨1, none, some "s", CartStatus.active, 100, 0, 0, none, 0⟩], [], 2, 1, 0⟩
        (some 7) none).1.user_id = some 7 ∧
    (get_or_create_cart
        ⟨[], [], [⟨1, none, some "s", CartStatus.active, 100, 0, 0, none, 0⟩], [], 2, 1, 0⟩
        (some 7) none).1.session_id = none :=
  (owner_fields_of_get_or_create
    ⟨[], [], [⟨1, none, some "s", CartStatus.active, 100, 0, 0, none, 0⟩], [], 2, 1, 0⟩
    (some 7) none
    (by decide) (by decide)).2.1 (by decide)

/-! ### Claim C4: add_item failure modes -/

/-- Claim C4: once the product and variation checks pass, add_item fails with
the quantity-cap error whenever the additive resulting quantity exceeds the
cap of 10 (checked before stock), and with the insufficient-stock error
whenever the resulting quantity is within the cap but exceeds the available
stock; in both cases the returned state is exactly the pre-call state — no
partial update of the existing item or the cart is persisted. -/
theorem add_item_failure_atomic (db : DB) (cart : Cart) (d : CartItemCreate)
    (prod : Product) (available : Int)
    (hprod : db.findProductActive d.product_id = some prod)
    (havail : availableStockFor db d prod = Except.ok available) :
    (addResultingQuantity db cart.id d > MAX_QUANTITY_PER_ITEM →
       add_item db cart d = (Except.error ⟨maxQuantityMsg, 400⟩, db)) ∧
    (addResultingQuantity db cart.id d ≤ MAX_QUANTITY_PER_ITEM →
     addResultingQuantity db cart.id d > available →
       add_item db cart d = (Except.error ⟨insufficientStockMsg available, 400⟩, db)) := by
  constructor
  · intro hgt
    unfold add_item
    simp only [hprod, havail]
    rw [if_pos hgt]
  · intro hle hgt
    unfold add_item
    simp only [hprod, havail]
    rw [if_neg (not_lt.mpr hle), if_pos hgt]

/-- Sample cart row for direct add_item calls. -/
def exCartAdd : Cart := ⟨1, some 1, none, CartStatus.active, 100, 0, 0, none, 0⟩

/-- Sample state for add_item failures: one active product with stock 3. -/
def exDbAdd : DB := ⟨[⟨1, "Lamp", 100, 3, true⟩], [], [exCartAdd], [], 2, 1, 0⟩

/-- Witness for C4: adding 11 of the product hits the cap error, adding 4
hits the stock error, and both leave the state untouched. -/
theorem add_item_failure_atomic_witness :
    add_item exDbAdd exCartAdd ⟨1, none, 11⟩
      = (Except.error ⟨maxQuantityMsg, 400⟩, exDbAdd) ∧
    add_item exDbAdd exCartAdd ⟨1, none, 4⟩
      = (Except.error ⟨insufficientStockMsg 3, 400⟩, exDbAdd) :=
  ⟨(add_item_failure_atomic exDbAdd exCartAdd ⟨1, none, 11⟩ ⟨1, "Lamp", 100, 3, true⟩ 3
      rfl rfl).1 (by decide),
   (add_item_failure_atomic exDbAdd exCartAdd ⟨1, none, 4⟩ ⟨1, "Lamp", 100, 3, true⟩ 3
      rfl rfl).2 (by decide) (by decide)⟩

/-! ### Claim C9: quantity bounds are an invariant of item mutations -/

theorem updateItem_items (db : DB) (iid : Nat) (newIt : CartItem) :
    (db.updateItem iid newIt).items
      = db.items.map (fun it => if it.id == iid then newIt else it) := rfl

theorem insertItem_items (db : DB) (it : CartItem) :
    (db.insertItem it).items = db.items ++ [it] := rfl

theorem update_item_quantity_bounds_aux (db : DB) (cart : Cart) (item_id : Nat)
    (q : Int) (item' : CartItem) (db' : DB)
    (hq : 1 ≤ q)
    (hinv : ∀ it ∈ db.items, 1 ≤ it.quantity ∧ it.quantity ≤ MAX_QUANTITY_PER_ITEM)
    (hsucc : update_item_quantity db cart item_id q = (Except.ok item', db')) :
    item'.quantity = q ∧ 1 ≤ item'.quantity ∧ item'.quantity ≤ MAX_QUANTITY_PER_ITEM ∧
    ∀ it ∈ db'.items, 1 ≤ it.quantity ∧ it.quantity ≤ MAX_QUANTITY_PER_ITEM := by
  unfold update_item_quantity at hsucc
  cases hfind : db.items.find? (fun it => it.id == item_id && it.cart_id == cart.id) with
  | none => simp only [hfind] at hsucc; exact absurd hsucc (by simp)
  | some cart_item =>
    simp only [hfind] at hsucc
    by_cases hcap : q > MAX_QUANTITY_PER_ITEM
    · rw [if_pos hcap] at hsucc
      exact absurd hsucc (by simp)
    · rw [if_neg hcap] at hsucc
      cases hp : db.findProduct cart_item.product_id with
      | none => simp only [hp] at hsucc; exact absurd hsucc (by simp)
      | some product =>
        simp only [hp] at hsucc
        by_cases hstock : q > liveAvailableStock db cart_item product
        · rw [if_pos hstock] at hsucc
          exact absurd hsucc (by simp)
        · rw [if_neg hstock] at hsucc
          injection hsucc with h1 h2
          injection h1 with h1
          subst h1
          subst h2
          have hqle : q ≤ MAX_QUANTITY_PER_ITEM := not_lt.mp hcap
          refine ⟨rfl, hq, hqle, ?_⟩
          intro it hit
          rw [updateCartTotals_items, updateItem_items, List.mem_map] at hit
          obtain ⟨x, hx, hxe⟩ := hit
          by_cases hid : (x.id == cart_item.id) = true
          · rw [if_pos hid] at hxe
            rw [← hxe]
            exact ⟨hq, hqle⟩
          · rw [if_neg hid] at hxe
            rw [← hxe]
            exact hinv x hx

theorem add_item_bounds_aux (db : DB) (cart : Cart) (d : CartItemCreate)
    (item' : CartItem) (db' : DB)
    (hq : 1 ≤ d.quantity)
    (hinv : ∀ it ∈ db.items, 1 ≤ it.quantity ∧ it.quantity ≤ MAX_QUANTITY_PER_ITEM)
    (hsucc : add_item db cart d = (Except.ok item', db')) :
    ∀ it ∈ db'.items, 1 ≤ it.quantity ∧ it.quantity ≤ MAX_QUANTITY_PER_ITEM := by
  unfold add_item at hsucc
  cases hprod : db.findProductActive d.product_id with
  | none => simp only [hprod] at hsucc; exact absurd hsucc (by simp)
  | some product =>
    simp only [hprod] at hsucc
    cases havail : availableStockFor db d product with
    | error e => simp only [havail] at hsucc; exact absurd hsucc (by simp)
    | ok available =>
      simp only [havail] at hsucc
      by_cases hcap : addResultingQuantity db cart.id d > MAX_QUANTITY_PER_ITEM
      · rw [if_pos hcap] at hsucc; exact absurd hsucc (by simp)
      · rw [if_neg hcap] at hsucc
        have hqle := not_lt.mp hcap
        by_cases hstock : addResultingQuantity db cart.id d > available
        · rw [if_pos hstock] at hsucc; exact absurd hsucc (by simp)
        · rw [if_neg hstock] at hsucc
          cases hex : findExistingItem db cart.id d with
          | some itx =>
            simp only [hex] at hsucc
            injection hsucc with h1 h2
            have hrq : addResultingQuantity db cart.id d = itx.quantity + d.quantity := by
              unfold addResultingQuantity
              rw [hex]
            have hxq : 1 ≤ addResultingQuantity db cart.id d := by
              have hmem : itx ∈ db.items := List.mem_of_find?_eq_some hex
              have h1b := (hinv itx hmem).1
              rw [hrq]
              omega
            subst h2
            intro it hit
            rw [updateCartTotals_items, updateItem_items, List.mem_map] at hit
            obtain ⟨x, hx, hxe⟩ := hit
            by_cases hid : (x.id == itx.id) = true
            · rw [if_pos hid] at hxe
              rw [← hxe]
              exact ⟨hxq, hqle⟩
            · rw [if_neg hid] at hxe
              rw [← hxe]
              exact hinv x hx
          | none =>
            simp only [hex] at hsucc
            injection hsucc with h1 h2
            have hdq : addResultingQuantity db cart.id d = d.quantity := by
              unfold addResultingQuantity; rw [hex]
            subst h2
            intro it hit
            rw [updateCartTotals_items, insertItem_items] at hit
            rcases List.mem_append.mp hit with hold | hnew
            · exact hinv it hold
            · rw [List.mem_singleton] at hnew
              subst hnew
              refine ⟨hq, ?_⟩
              show d.quantity ≤ MAX_QUANTITY_PER_ITEM
              rw [← hdq]
              exact hqle

/-- Claim C9: with payload quantities positive (the schema constraint) and
every stored item already within [1, cap], both item mutations preserve the
bounds: update_item_quantity (absolute semantics, same cap and stock checks
as add_item) leaves the updated item with quantity exactly the requested
positive value and at most the cap, and add_item keeps every stored quantity
within [1, cap]; neither ever leaves an item with quantity zero or
negative. -/
theorem cart_item_quantity_invariant :
    (∀ (db : DB) (cart : Cart) (item_id : Nat) (q : Int) (item' : CartItem) (db' : DB),
       CartItemUpdateValid q →
       (∀ it ∈ db.items, 1 ≤ it.quantity ∧ it.quantity ≤ MAX_QUANTITY_PER_ITEM) →
       update_item_quantity db cart item_id q = (Except.ok item', db') →
       item'.quantity = q ∧ 1 ≤ item'.quantity ∧ item'.quantity ≤ MAX_QUANTITY_PER_ITEM ∧
       ∀ it ∈ db'.items, 1 ≤ it.quantity ∧ it.quantity ≤ MAX_QUANTITY_PER_ITEM) ∧
    (∀ (db : DB) (cart : Cart) (d : CartItemCreate) (item' : CartItem) (db' : DB),
       CartItemCreateValid d →
       (∀ it ∈ db.items, 1 ≤ it.quantity ∧ it.quantity ≤ MAX_QUANTITY_PER_ITEM) →
       add_item db cart d = (Except.ok item', db') →
       ∀ it ∈ db'.items, 1 ≤ it.quantity ∧ it.quantity ≤ MAX_QUANTITY_PER_ITEM) :=
  ⟨fun db cart item_id q item' db' hq hinv hsucc =>
     update_item_quantity_bounds_aux db cart item_id q item' db' hq hinv hsucc,
   fun db cart d item' db' hq hinv hsucc =>
     add_item_bounds_aux db cart d item' db' hq hinv hsucc⟩

/-- Sample item row for the C9 witness. -/
def exItemUpd : CartItem := ⟨1, 1, some 1, 1, none, 2, some 100⟩

/-- Sample state for the C9 witness: stock 5, one item at quantity 2. -/
def exDbUpd : DB := ⟨[⟨1, "Lamp", 100, 5, true⟩], [], [exCartAdd], [exItemUpd], 2, 2, 0⟩

/-- Witness for C9: setting the quantity of the sample item to 3 succeeds
and the result respects the bounds. -/
theorem cart_item_quantity_invariant_witness :
    (withQuantityPrice exItemUpd 3 100).quantity = 3 ∧
    1 ≤ (withQuantityPrice exItemUpd 3 100).quantity ∧
    (withQuantityPrice exItemUpd 3 100).quantity ≤ MAX_QUANTITY_PER_ITEM := by
  have h := cart_item_quantity_invariant.1 exDbUpd exCartAdd 1 3
    (withQuantityPrice exItemUpd 3 100)
    (updateCartTotals (exDbUpd.updateItem 1 (withQuantityPrice exItemUpd 3 100)) 1)
    (show (1 : Int) ≤ 3 by decide)
    (by decide)
    rfl
  exact ⟨h.1, h.2.1, h.2.2.1⟩

/-! ### Claim C6: checkout validation report -/

theorem lengthBeqZero (l : List String) : (l.length == 0) = l.isEmpty := by
  cases l <;> rfl

theorem foldl_issue_eq (db : DB) (l : List CartItem) (acc : List String) :
    l.foldl (fun a it =>
        match checkoutIssue db it with
        | some m => a ++ [m]
        | none => a) acc
      = acc ++ l.filterMap (checkoutIssue db) := by
  induction l generalizing acc with
  | nil => simp
  | cons x xs ih =>
    cases h : checkoutIssue db x with
    | some m => simp [h, ih, List.filterMap_cons]
    | none => simp [h, ih, List.filterMap_cons]

theorem collectIssues_eq_filterMap (db : DB) (l : List CartItem) :
    collectIssues db l = l.filterMap (checkoutIssue db) := by
  unfold collectIssues
  simpa using foldl_issue_eq db l []

/-- Claim C6: validate_cart_for_checkout is a pure report (it returns a pair
and threads no state, so it mutates nothing and raises nothing): an empty
cart yields invalid with exactly the single empty-cart issue, short-cutting
the loop; otherwise the issues are exactly one per problem item, in item
iteration order (the filterMap of the per-item issue), and the verdict is
true exactly when the issue list is empty. -/
theorem checkout_validation_report (db : DB) (cart : Cart) :
    (db.cartItems cart.id = [] →
       validate_cart_for_checkout db cart = (false, ["Cart is empty"])) ∧
    (db.cartItems cart.id ≠ [] →
       validate_cart_for_checkout db cart =
         (((db.cartItems cart.id).filterMap (checkoutIssue db)).isEmpty,
          (db.cartItems cart.id).filterMap (checkoutIssue db))) ∧
    ((validate_cart_for_checkout db cart).1 = true ↔
      (validate_cart_for_checkout db cart).2 = []) := by
  by_cases hemp : db.cartItems cart.id = []
  · have hval : validate_cart_for_checkout db cart = (false, ["Cart is empty"]) := by
      unfold validate_cart_for_checkout
      rw [hemp]
      rfl
    refine ⟨fun _ => hval, fun h => absurd hemp h, ?_⟩
    rw [hval]
    simp
  · have hne : (db.cartItems cart.id).isEmpty = false := by
      cases hcc : db.cartItems cart.id
      · exact absurd hcc hemp
      · rfl
    have hval : validate_cart_for_checkout db cart
        = ((collectIssues db (db.cartItems cart.id)).length == 0,
           collectIssues db (db.cartItems cart.id)) := by
      unfold validate_cart_for_checkout
      simp only [hne, Bool.false_eq_true, if_false]
    refine ⟨fun h => absurd h hemp, fun _ => ?_, ?_⟩
    · rw [hval, collectIssues_eq_filterMap, lengthBeqZero]
    · rw [hval]
      simp [collectIssues_eq_filterMap, List.length_eq_zero]

/-- Sample cart row for checkout validation. -/
def exCartVal : Cart := ⟨1, some 1, none, CartStatus.active, 100, 0, 0, none, 0⟩

/-- Sample state with two problem items: item 1 references an inactive
product, item 2 requests 3 units of a product with live stock 1. -/
def exDbVal : DB :=
  ⟨[⟨1, "A", 100, 10, false⟩, ⟨2, "B", 50, 1, true⟩], [], [exCartVal],
   [⟨1, 1, none, 1, none, 2, some 100⟩, ⟨2, 1, none, 2, none, 3, some 50⟩],
   2, 3, 0⟩

/-- Witness for C6, the two-problem aggregation scenario: invalid with
exactly two issues, one per problem item, in iteration order. -/
theorem checkout_validation_report_witness :
    validate_cart_for_checkout exDbVal exCartVal
      = (false, [productUnavailableIssue "A", stockIssue "B" 1 3]) := by
  have h := (checkout_validation_report exDbVal exCartVal).2.1 (by decide)
  rw [h]
  decide

/-! ### Claim C3: additive add semantics -/

theorem find?_append_singleton {α : Type} (p : α → Bool) (l : List α) (a : α)
    (h : l.find? p = none) (ha : p a = true) : (l ++ [a]).find? p = some a := by
  rw [List.find?_append, h, Option.none_or]
  exact List.find?_cons_of_pos _ ha

/-- Claim C3: on a cart with no existing line for product P (no variation),
with P active and stocked, adding quantity 2 and then quantity 3 of P first
creates a single item with quantity 2 and then updates that same item
additively to quantity 5; the final state holds exactly one CartItem for
(P, no variation) in that cart, with quantity 5, not two items. -/
theorem additive_add_semantics (db : DB) (cart : Cart) (P : Nat) (prod : Product)
    (hprod : db.findProductActive P = some prod)
    (hstock : 5 ≤ prod.stock)
    (hfresh : ∀ it ∈ db.items, it.id < db.next_item_id)
    (hnoline : ∀ it ∈ db.items,
      ¬(it.cart_id = cart.id ∧ it.product_id = P ∧ it.variation_id = none)) :
    add_item db cart ⟨P, none, 2⟩
      = (Except.ok (⟨db.next_item_id, cart.id, cart.user_id, P, none, 2, some prod.price⟩ : CartItem),
         updateCartTotals
           (db.insertItem ⟨db.next_item_id, cart.id, cart.user_id, P, none, 2, some prod.price⟩)
           cart.id) ∧
    (add_item
        (updateCartTotals
          (db.insertItem ⟨db.next_item_id, cart.id, cart.user_id, P, none, 2, some prod.price⟩)
          cart.id) cart ⟨P, none, 3⟩).1
      = Except.ok (⟨db.next_item_id, cart.id, cart.user_id, P, none, 5, some prod.price⟩ : CartItem) ∧
    ((add_item
        (updateCartTotals
          (db.insertItem ⟨db.next_item_id, cart.id, cart.user_id, P, none, 2, some prod.price⟩)
          cart.id) cart ⟨P, none, 3⟩).2.items.filter
        (fun it => it.cart_id == cart.id && it.product_id == P && it.variation_id == none))
      = [⟨db.next_item_id, cart.id, cart.user_id, P, none, 5, some prod.price⟩] := by
  set newIt : CartItem := ⟨db.next_item_id, cart.id, cart.user_id, P, none, 2, some prod.price⟩
    with hnewIt
  set updIt : CartItem := ⟨db.next_item_id, cart.id, cart.user_id, P, none, 5, some prod.price⟩
    with hupdIt
  set db1 : DB := updateCartTotals (db.insertItem newIt) cart.id with hdb1
  have hex1 : findExistingItem db cart.id ⟨P, none, 2⟩ = none := by
    unfold findExistingItem
    rw [List.find?_eq_none]
    intro x hx hpx
    simp only [Bool.and_eq_true, beq_iff_eq] at hpx
    exact hnoline x hx ⟨hpx.1.1, hpx.1.2, hpx.2⟩
  have hq1 : addResultingQuantity db cart.id ⟨P, none, 2⟩ = 2 := by
    unfold addResultingQuantity
    rw [hex1]
  have havail1 : availableStockFor db ⟨P, none, 2⟩ prod = Except.ok prod.stock := by
    unfold availableStockFor
    rfl
  have h1 : add_item db cart ⟨P, none, 2⟩ = (Except.ok newIt, db1) := by
    unfold add_item
    simp only [hprod, havail1, hex1]
    rw [if_neg (by rw [hq1]; decide), if_neg (by rw [hq1]; omega)]
  have hitems1 : db1.items = db.items ++ [newIt] := by
    rw [hdb1, updateCartTotals_items, insertItem_items]
  have hprod2 : db1.findProductActive P = some prod := by
    rw [hdb1]
    unfold DB.findProductActive
    rw [updateCartTotals_products]
    exact hprod
  have havail2 : availableStockFor db1 ⟨P, none, 3⟩ prod = Except.ok prod.stock := by
    unfold availableStockFor
    rfl
  have hex2 : findExistingItem db1 cart.id ⟨P, none, 3⟩ = some newIt := by
    unfold findExistingItem
    rw [hitems1]
    apply find?_append_singleton
    · rw [List.find?_eq_none]
      intro x hx hpx
      simp only [Bool.and_eq_true, beq_iff_eq] at hpx
      exact hnoline x hx ⟨hpx.1.1, hpx.1.2, hpx.2⟩
    · rw [hnewIt]
      simp
  have hq2 : addResultingQuantity db1 cart.id ⟨P, none, 3⟩ = 5 := by
    unfold addResultingQuantity
    rw [hex2, hnewIt]
    show (2 : Int) + 3 = 5
    norm_num
  have h2 : add_item db1 cart ⟨P, none, 3⟩
      = (Except.ok updIt, updateCartTotals (db1.updateItem newIt.id updIt) cart.id) := by
    unfold add_item
    simp only [hprod2, havail2, hex2]
    rw [if_neg (by rw [hq2]; decide), if_neg (by rw [hq2]; omega)]
    rw [hq2, hnewIt, hupdIt]
    rfl
  refine ⟨h1, ?_, ?_⟩
  · rw [h2]
  · rw [h2]
    show ((updateCartTotals (db1.updateItem newIt.id updIt) cart.id).items.filter
        (fun it => it.cart_id == cart.id && it.product_id == P && it.variation_id == none))
      = [updIt]
    rw [updateCartTotals_items, updateItem_items, hitems1, List.map_append]
    have hmapold : db.items.map (fun it => if it.id == newIt.id then updIt else it)
        = db.items := by
      have hpt : ∀ a ∈ db.items, (if a.id == newIt.id then updIt else a) = id a := by
        intro a ha
        have hlt := hfresh a ha
        have : ¬(a.id == newIt.id) = true := by
          rw [hnewIt]
          simp [Nat.ne_of_lt hlt]
        rw [if_neg this]
        rfl
      rw [List.map_congr_left hpt, List.map_id]
    have hmapnew : [newIt].map (fun it => if it.id == newIt.id then updIt else it)
        = [updIt] := by simp
    rw [hmapold, hmapnew, List.filter_append]
    have hfilterold : db.items.filter
        (fun it => it.cart_id == cart.id && it.product_id == P && it.variation_id == none)
        = [] := by
      rw [List.filter_eq_nil_iff]
      intro x hx hpx
      simp only [Bool.and_eq_true, beq_iff_eq] at hpx
      exact hnoline x hx ⟨hpx.1.1, hpx.1.2, hpx.2⟩
    rw [hfilterold]
    rw [List.filter_cons]
    rw [if_pos (by rw [hupdIt]; simp)]
    rfl

/-- Sample state for the C3 witness: one active product, empty cart 1. -/
def exDbAddTwice : DB := ⟨[⟨1, "Lamp", 100, 10, true⟩], [], [exCartAdd], [], 2, 1, 0⟩

/-- Witness for C3 on the sample state: after adding 2 then 3 of product 1,
the second call reports the single merged item with quantity 5. -/
theorem additive_add_semantics_witness :
    (add_item
        (updateCartTotals
          (exDbAddTwice.insertItem ⟨1, 1, some 1, 1, none, 2, some 100⟩) 1)
        exCartAdd ⟨1, none, 3⟩).1
      = Except.ok (⟨1, 1, some 1, 1, none, 5, some 100⟩ : CartItem) :=
  (additive_add_semantics exDbAddTwice exCartAdd 1 ⟨1, "Lamp", 100, 10, true⟩
    rfl (by decide) (by intro it hit; cases hit) (by intro it hit; cases hit)).2.1

/-! ### Claim C5: best-effort merge of the session cart -/

/-- Presence of a cart row with the given id. -/
def hasCartId (db : DB) (cid : Nat) : Prop := ∃ c ∈ db.carts, c.id = cid

theorem hasCartId_of_carts_eq (db db' : DB) (cid : Nat) (h : db'.carts = db.carts) :
    hasCartId db cid → hasCartId db' cid := by
  rintro ⟨c, hc, hid⟩
  exact ⟨c, h ▸ hc, hid⟩

theorem updateCart_hasCartId (db : DB) (cid' : Nat) (f : Cart → Cart) (cid : Nat)
    (hf : ∀ c : Cart, c.id = cid' → (f c).id = cid') :
    hasCartId db cid → hasCartId (db.updateCart cid' f) cid := by
  rintro ⟨c, hc, hid⟩
  refine ⟨if c.id == cid' then f c else c, List.mem_map_of_mem _ hc, ?_⟩
  by_cases h : (c.id == cid') = true
  · rw [if_pos h]
    have hcc : c.id = cid' := by simpa using h
    rw [hf c hcc, ← hcc, hid]
  · rw [if_neg h]
    exact hid

theorem updateCartTotals_hasCartId (db : DB) (cid' cid : Nat) :
    hasCartId db cid → hasCartId (updateCartTotals db cid') cid := by
  intro h
  cases hf : db.findCart cid' with
  | none => rw [updateCartTotals_of_none db cid' hf]; exact h
  | some cart =>
    rw [updateCartTotals_of_some db cid' cart hf]
    exact updateCart_hasCartId db cid' _ cid
      (fun c hc => by rw [totalsSetter_id]; exact hc) h

theorem add_item_cases (db : DB) (cart : Cart) (d : CartItemCreate) :
    (∃ e, add_item db cart d = (Except.error e, db)) ∨
    (∃ r dbi, dbi.carts = db.carts ∧
      add_item db cart d = (Except.ok r, updateCartTotals dbi cart.id)) := by
  unfold add_item
  split
  · exact Or.inl ⟨_, rfl⟩
  · split
    · exact Or.inl ⟨_, rfl⟩
    · split
      · exact Or.inl ⟨_, rfl⟩
      · split
        · exact Or.inl ⟨_, rfl⟩
        · split
          · refine Or.inr ⟨_, _, ?_, rfl⟩
            rfl
          · refine Or.inr ⟨_, _, ?_, rfl⟩
            rfl

theorem add_item_hasCartId (db : DB) (cart : Cart) (d : CartItemCreate) (cid : Nat)
    (h : hasCartId db cid) : hasCartId (add_item db cart d).2 cid := by
  rcases add_item_cases db cart d with ⟨e, he⟩ | ⟨r, dbi, hcarts, hok⟩
  · rw [he]
    exact h
  · rw [hok]
    exact updateCartTotals_hasCartId dbi cart.id cid
      (hasCartId_of_carts_eq db dbi cid hcarts h)

theorem get_or_create_cases (db : DB) (u : Option Nat) (s : Option String) :
    (∃ c : Cart, get_or_create_cart db u s = (c, db.insertCart c)) ∨
    (∃ (cart c : Cart), get_or_create_cart db u s
        = (c, (db.updateCart cart.id
            (fun x => { x with status := CartStatus.expired })).insertCart c)) ∨
    (∃ cart : Cart, get_or_create_cart db u s
        = ({ cart with expires_at := expirationFrom db CART_EXPIRATION_HOURS },
           db.updateCart cart.id
             (fun _ => { cart with expires_at := expirationFrom db CART_EXPIRATION_HOURS }))) := by
  unfold get_or_create_cart
  split
  · exact Or.inl ⟨_, rfl⟩
  · split
    · exact Or.inr (Or.inl ⟨_, _, rfl⟩)
    · exact Or.inr (Or.inr ⟨_, rfl⟩)

theorem get_or_create_hasCartId (db : DB) (u : Option Nat) (s : Option String) (cid : Nat)
    (h : hasCartId db cid) : hasCartId (get_or_create_cart db u s).2 cid := by
  rcases get_or_create_cases db u s with ⟨c, hc⟩ | ⟨cart, c, hc⟩ | ⟨cart, hc⟩
  · rw [hc]
    obtain ⟨x, hxm, hid⟩ := h
    exact ⟨x, List.mem_append_left _ hxm, hid⟩
  · rw [hc]
    have h1 : hasCartId (db.updateCart cart.id
        (fun x => { x with status := CartStatus.expired })) cid :=
      updateCart_hasCartId db cart.id _ cid (fun x hx => hx) h
    obtain ⟨x, hxm, hid⟩ := h1
    exact ⟨x, List.mem_append_left _ hxm, hid⟩
  · rw [hc]
    exact updateCart_hasCartId db cart.id _ cid (fun x hx => rfl) h

theorem foldl_mergeStep_hasCartId (ucart : Cart) (l : List CartItem) (db0 : DB) (cid : Nat)
    (h : hasCartId db0 cid) : hasCartId (l.foldl (mergeStep ucart) db0) cid := by
  induction l generalizing db0 with
  | nil => exact h
  | cons x xs ih =>
    rw [List.foldl_cons]
    exact ih _ (add_item_hasCartId db0 ucart ⟨x.product_id, x.variation_id, x.quantity⟩ cid h)

theorem add_item_error_state (db : DB) (cart : Cart) (d : CartItemCreate) (e : CartError)
    (h : (add_item db cart d).1 = Except.error e) : (add_item db cart d).2 = db := by
  rcases add_item_cases db cart d with ⟨e2, he2⟩ | ⟨r, dbi, -, hok⟩
  · rw [he2]
  · rw [hok] at h
    simp at h

/-- Claim C5: merge_session_cart is a best-effort merge — when the session's
ACTIVE cart is absent or empty it returns nothing and leaves the state
untouched; otherwise it returns the resolved-or-created user cart, in the
final state the session cart's row is marked CONVERTED, and each per-item
add that raises a CartError is swallowed leaving the accumulated state
unchanged (so that item is skipped). -/
theorem merge_best_effort (db : DB) (uid : Nat) (sid : String) :
    (findActiveCartBySession db (some sid) = none →
       merge_session_cart db uid sid = (none, db)) ∧
    (∀ sc, findActiveCartBySession db (some sid) = some sc →
       db.cartItems sc.id = [] →
       merge_session_cart db uid sid = (none, db)) ∧
    (∀ sc, findActiveCartBySession db (some sid) = some sc →
       db.cartItems sc.id ≠ [] →
       (merge_session_cart db uid sid).1 = some (get_or_create_cart db (some uid) none).1 ∧
       (∃ c ∈ (merge_session_cart db uid sid).2.carts,
          c.id = sc.id ∧ c.status = CartStatus.converted) ∧
       (∀ c ∈ (merge_session_cart db uid sid).2.carts,
          c.id = sc.id → c.status = CartStatus.converted)) ∧
    (∀ (acc : DB) (it : CartItem) (e : CartError),
       (add_item acc (get_or_create_cart db (some uid) none).1
           ⟨it.product_id, it.variation_id, it.quantity⟩).1 = Except.error e →
       mergeStep (get_or_create_cart db (some uid) none).1 acc it = acc) := by
  refine ⟨?_, ?_, ?_, ?_⟩
  · intro h
    unfold merge_session_cart
    rw [h]
  · intro sc h hemp
    have hise : (db.cartItems sc.id).isEmpty = true := by rw [hemp]; rfl
    unfold merge_session_cart
    simp only [h]
    rw [if_pos hise]
  · intro sc h hne
    have hisne : (db.cartItems sc.id).isEmpty = false := by
      cases hcc : db.cartItems sc.id
      · exact absurd hcc hne
      · rfl
    have hm : merge_session_cart db uid sid
        = (some (get_or_create_cart db (some uid) none).1,
           ((db.cartItems sc.id).foldl
               (mergeStep (get_or_create_cart db (some uid) none).1)
               (get_or_create_cart db (some uid) none).2).updateCart sc.id
             (fun c => { c with status := CartStatus.converted })) := by
      unfold merge_session_cart
      simp only [h, hisne, Bool.false_eq_true, if_false]
    refine ⟨by rw [hm], ?_, ?_⟩
    · have hbase : hasCartId db sc.id := by
        obtain ⟨-, -, hmem⟩ := findActiveCartBySession_some db (some sid) sc h
        exact ⟨sc, hmem, rfl⟩
      have h3 : hasCartId ((db.cartItems sc.id).foldl
          (mergeStep (get_or_create_cart db (some uid) none).1)
          (get_or_create_cart db (some uid) none).2) sc.id :=
        foldl_mergeStep_hasCartId _ _ _ _
          (get_or_create_hasCartId db (some uid) none sc.id hbase)
      obtain ⟨c, hcm, hcid⟩ := h3
      rw [hm]
      refine ⟨if c.id == sc.id then { c with status := CartStatus.converted } else c,
        List.mem_map_of_mem _ hcm, ?_⟩
      rw [if_pos (by simp [hcid])]
      exact ⟨hcid, rfl⟩
    · rw [hm]
      intro c hcm hcid
      simp only [DB.updateCart, List.mem_map] at hcm
      obtain ⟨x, hx, hxe⟩ := hcm
      by_cases hid2 : (x.id == sc.id) = true
      · rw [if_pos hid2] at hxe
        rw [← hxe]
      · rw [if_neg hid2] at hxe
        subst hxe
        exact absurd (by simp [hcid]) hid2
  · intro acc it e herr
    unfold mergeStep
    exact add_item_error_state acc (get_or_create_cart db (some uid) none).1
      ⟨it.product_id, it.variation_id, it.quantity⟩ e herr

/-- Sample state for the merge witness: session cart with item A (quantity 2,
ample stock) and item B (quantity 9, stock 1, so its add fails and is
skipped); user 7 has no cart yet. -/
def exDbMerge : DB :=
  ⟨[⟨1, "A", 100, 10, true⟩, ⟨2, "B", 50, 1, true⟩], [],
   [⟨1, none, some "s", CartStatus.active, 100, 0, 0, none, 0⟩],
   [⟨1, 1, none, 1, none, 2, some 100⟩, ⟨2, 1, none, 2, none, 9, some 50⟩],
   2, 3, 0⟩

/-- Witness for C5: merging the sample session cart returns the resolved
user cart. -/
theorem merge_best_effort_witness :
    (merge_session_cart exDbMerge 7 "s").1
      = some (get_or_create_cart exDbMerge (some 7) none).1 :=
  ((merge_best_effort exDbMerge 7 "s").2.2.1
    ⟨1, none, some "s", CartStatus.active, 100, 0, 0, none, 0⟩ rfl (by decide)).1

/-! ### Claim C7: expiration replacement and sliding expiration -/

theorem get_cart_some_mem (db : DB) (u : Option Nat) (s : Option String) (cart : Cart)
    (h : get_cart db u s = some cart) : cart ∈ db.carts := by
  unfold get_cart at h
  by_cases htu : pyTruthyNat u = true
  · rw [if_pos htu] at h
    exact (findActiveCartByUser_some db u cart h).2.2
  · rw [if_neg htu] at h
    by_cases hts : pyTruthyStr s = true
    · rw [if_pos hts] at h
      exact (findActiveCartBySession_some db s cart h).2.2
    · rw [if_neg hts] at h
      cases h

/-- Claim C7 (over the spec-modelled cart expiration helpers): when the
owner's ACTIVE cart is found and its expires_at lies in the past,
get_or_create_cart returns a freshly created ACTIVE cart carrying the next
cart id — a different id than the old cart — with expiration now + 72h, and
in the resulting state every row with the old cart's id is EXPIRED; when the
found cart is not expired, the very same cart is returned with expires_at
slid forward to now + 72 hours. -/
theorem expiration_replacement (db : DB) (user_id : Option Nat)
    (session_id : Option String) (cart : Cart)
    (hfresh : ∀ c ∈ db.carts, c.id < db.next_cart_id)
    (hfound : get_cart db user_id session_id = some cart) :
    (cartIsExpired db cart = true →
       (get_or_create_cart db user_id session_id).1.id = db.next_cart_id ∧
       (get_or_create_cart db user_id session_id).1.id ≠ cart.id ∧
       (get_or_create_cart db user_id session_id).1.status = CartStatus.active ∧
       (get_or_create_cart db user_id session_id).1.expires_at
         = expirationFrom db CART_EXPIRATION_HOURS ∧
       ∀ c ∈ (get_or_create_cart db user_id session_id).2.carts,
         c.id = cart.id → c.status = CartStatus.expired) ∧
    (cartIsExpired db cart = false →
       (get_or_create_cart db user_id session_id).1
         = { cart with expires_at := expirationFrom db CART_EXPIRATION_HOURS }) := by
  have hscrut : (if pyTruthyNat user_id then findActiveCartByUser db user_id
      else if pyTruthyStr session_id then findActiveCartBySession db session_id
      else none) = some cart := hfound
  have hmem : cart ∈ db.carts := get_cart_some_mem db user_id session_id cart hfound
  have hlt : cart.id < db.next_cart_id := hfresh cart hmem
  constructor
  · intro he
    have hres : get_or_create_cart db user_id session_id
        = (mkNewCart (db.updateCart cart.id
             (fun c => { c with status := CartStatus.expired })) user_id session_id,
           (db.updateCart cart.id
             (fun c => { c with status := CartStatus.expired })).insertCart
             (mkNewCart (db.updateCart cart.id
               (fun c => { c with status := CartStatus.expired })) user_id session_id)) := by
      unfold get_or_create_cart
      simp only [hscrut]
      rw [if_pos he]
    refine ⟨by rw [hres]; rfl, ?_, by rw [hres]; rfl, by rw [hres]; rfl, ?_⟩
    · rw [hres]
      show db.next_cart_id ≠ cart.id
      exact Ne.symm (Nat.ne_of_lt hlt)
    · rw [hres]
      intro c hc hcid
      rcases List.mem_append.mp hc with hmap | hnew
      · simp only [DB.updateCart, List.mem_map] at hmap
        obtain ⟨x, hx, hxe⟩ := hmap
        by_cases hid : (x.id == cart.id) = true
        · rw [if_pos hid] at hxe
          rw [← hxe]
        · rw [if_neg hid] at hxe
          subst hxe
          exact absurd (by simp [hcid]) hid
      · rw [List.mem_singleton] at hnew
        subst hnew
        exact absurd hcid (Ne.symm (Nat.ne_of_lt hlt))
  · intro he
    have hres : get_or_create_cart db user_id session_id
        = ({ cart with expires_at := expirationFrom db CART_EXPIRATION_HOURS },
           db.updateCart cart.id
             (fun _ => { cart with expires_at := expirationFrom db CART_EXPIRATION_HOURS })) := by
      unfold get_or_create_cart
      simp only [hscrut]
      rw [if_neg (by rw [he]; exact Bool.false_ne_true)]
    rw [hres]

/-- Sample state for C7: user 1 owns the active cart 1 whose expires_at (-5)
is already in the past at now = 0. -/
def exDbExpired : DB :=
  ⟨[], [], [⟨1, some 1, none, CartStatus.active, -5, 0, 0, none, 0⟩], [], 2, 1, 0⟩

/-- Witness for C7 on the sample state: the next resolve for user 1 returns
a cart with the fresh id 2, different from the expired cart's id 1. -/
theorem expiration_replacement_witness :
    (get_or_create_cart exDbExpired (some 1) none).1.id = exDbExpired.next_cart_id ∧
    (get_or_create_cart exDbExpired (some 1) none).1.id
      ≠ (⟨1, some 1, none, CartStatus.active, -5, 0, 0, none, 0⟩ : Cart).id := by
  have h := (expiration_replacement exDbExpired (some 1) none
    ⟨1, some 1, none, CartStatus.active, -5, 0, 0, none, 0⟩ (by decide) rfl).1 (by decide)
  exact ⟨h.1, h.2.1⟩
